import Mathlib

/-!
Verification of the SEO Writer app (`app.py`): a shallow embedding of its
pure helpers (`clean_domain`, `char_count`, `enforce_length`), its prompt
construction, its Google-Sheet logging routine (`log_to_sheet`) and the
orchestration block guarded by the "Genera testo SEO" button, together with
theorems settling the specification's testable properties.

Python strings are modelled as Lean `String`s (sequences of Unicode code
points); external effects (the OpenAI completion endpoint, the spreadsheet
API) are modelled by explicit oracle parameters.
-/

set_option maxHeartbeats 1000000

namespace SeoWriter

/-- Whitespace recognised by Python `str.strip()`, restricted to the ASCII
range (exotic Unicode whitespace classes are elided from the model). -/
def pyIsSpace (c : Char) : Bool :=
  c = ' ' || c = '\t' || c = '\n' || c = '\r' || c = '\x0b' || c = '\x0c'

/-- Python `str.strip()`: drop leading and trailing whitespace. -/
def pyStrip (s : String) : String :=
  (((s.toList.dropWhile pyIsSpace).reverse.dropWhile pyIsSpace).reverse).asString

/-- Model of `char_count` from app.py line 37: `len(text)`. -/
def char_count (text : String) : Nat := text.length

/-- The sentence-terminal characters of the character class `[\.!?]` used by
the regex in `enforce_length` (app.py line 46). -/
def isTerm (c : Char) : Bool := c = '.' || c = '!' || c = '?'

/-- Index of the last sentence terminator in a list of characters, if any.
`re.search(r"(.+[\.!?])[^\.!?]*$", trimmed, re.S)` matches exactly when the
last terminator of `trimmed` sits at an index `≥ 1` (the `.+` needs at least
one character before it), and then group 1 is the prefix of `trimmed` up to
and including that terminator. -/
def lastTermIdx : List Char → Option Nat
  | [] => none
  | c :: cs =>
    match lastTermIdx cs with
    | some i => some (i + 1)
    | none => if isTerm c then some 0 else none

/-- Model of `enforce_length` from app.py lines 41–47.  If the text fits in `max_c`
it is returned unchanged (`min_c` is never read); otherwise the text is cut
to `max_c` characters and, when the regex matches (last terminator of the
prefix at index ≥ 1), the prefix up to and including that terminator is
returned, else the raw hard cut. -/
def enforce_length (text : String) (min_c max_c : Nat) : String :=
  if text.length ≤ max_c then text
  else
    match lastTermIdx (text.toList.take max_c) with
    | some (i + 1) => ((text.toList.take max_c).take (i + 2)).asString
    | _ => (text.toList.take max_c).asString

theorem asString_toList (l : List Char) : (List.asString l).toList = l := rfl

theorem length_asString (l : List Char) : (List.asString l).length = l.length := rfl

theorem toList_length (s : String) : s.toList.length = s.length := rfl

theorem lastTermIdx_none_iff {l : List Char} :
    lastTermIdx l = none ↔ ∀ c ∈ l, isTerm c = false := by
  induction l with
  | nil => simp [lastTermIdx]
  | cons c cs ih =>
    cases h : lastTermIdx cs with
    | some i =>
      simp only [lastTermIdx, h]
      constructor
      · intro hcontra; cases hcontra
      · intro hall
        have : lastTermIdx cs = none := ih.mpr (fun d hd => hall d (List.mem_cons_of_mem _ hd))
        rw [this] at h; cases h
    | none =>
      simp only [lastTermIdx, h]
      constructor
      · intro hnone
        by_cases hc : isTerm c = true
        · simp [hc] at hnone
        · intro d hd
          rcases List.mem_cons.mp hd with rfl | hd'
          · simpa using hc
          · exact ih.mp h d hd'
      · intro hall
        simp [hall c (List.mem_cons_self c cs)]

theorem lastTermIdx_lt_length {l : List Char} {i : Nat}
    (h : lastTermIdx l = some i) : i < l.length := by
  induction l generalizing i with
  | nil => cases h
  | cons c cs ih =>
    cases h' : lastTermIdx cs with
    | some j =>
      rw [lastTermIdx, h'] at h
      cases h
      simpa using Nat.succ_lt_succ (ih h')
    | none =>
      rw [lastTermIdx, h'] at h
      by_cases hc : isTerm c = true
      · simp [hc] at h
        subst h
        simp
      · simp [hc] at h

theorem lastTermIdx_isTerm {l : List Char} {i : Nat}
    (h : lastTermIdx l = some i) : isTerm (l.getD i ' ') = true := by
  induction l generalizing i with
  | nil => cases h
  | cons c cs ih =>
    cases h' : lastTermIdx cs with
    | some j =>
      rw [lastTermIdx, h'] at h
      cases h
      simpa using ih h'
    | none =>
      rw [lastTermIdx, h'] at h
      by_cases hc : isTerm c = true
      · simp [hc] at h
        subst h
        simpa using hc
      · simp [hc] at h

theorem getD_mem_of_lt {α : Type} {l : List α} {j : Nat} (hj : j < l.length) (d : α) :
    l.getD j d ∈ l := by
  induction l generalizing j with
  | nil => cases hj
  | cons c cs ih =>
    cases j with
    | zero => simp
    | succ j' =>
      have := ih (j := j') (Nat.lt_of_succ_lt_succ hj)
      simpa using Or.inr this

theorem lastTermIdx_ge {l : List Char} {i : Nat}
    (h : lastTermIdx l = some i) :
    ∀ j, j < l.length → isTerm (l.getD j ' ') = true → j ≤ i := by
  induction l generalizing i with
  | nil => intro j hj; cases hj
  | cons c cs ih =>
    intro j hj hterm
    cases h' : lastTermIdx cs with
    | some k =>
      rw [lastTermIdx, h'] at h
      cases h
      cases j with
      | zero => exact Nat.zero_le _
      | succ j' =>
        have := ih h' j' (by simpa using Nat.lt_of_succ_lt_succ hj) (by simpa using hterm)
        exact Nat.succ_le_succ this
    | none =>
      cases j with
      | zero => exact Nat.zero_le _
      | succ j' =>
        have : isTerm (cs.getD j' ' ') = true := by simpa using hterm
        have hmem : cs.getD j' ' ' ∈ cs :=
          getD_mem_of_lt (Nat.lt_of_succ_lt_succ (by simpa using hj)) ' '
        have := lastTermIdx_none_iff.mp h' _ hmem
        rw [this] at ‹isTerm (cs.getD j' ' ') = true›
        cases ‹(false : Bool) = true›

/-- If some terminator occurs at index `j`, `lastTermIdx` finds an index
`≥ j`. -/
theorem lastTermIdx_exists {l : List Char} {j : Nat}
    (hj : j < l.length) (hterm : isTerm (l.getD j ' ') = true) :
    ∃ i, lastTermIdx l = some i ∧ j ≤ i := by
  cases h : lastTermIdx l with
  | none =>
    have hmem : l.getD j ' ' ∈ l := getD_mem_of_lt hj ' '
    have := lastTermIdx_none_iff.mp h _ hmem
    rw [this] at hterm; cases hterm
  | some i =>
    exact ⟨i, rfl, lastTermIdx_ge h j hj hterm⟩

theorem enforce_length_of_le {s : String} {mn mx : Nat} (h : s.length ≤ mx) :
    enforce_length s mn mx = s := by
  simp [enforce_length, h]

/-- C3: for every text with length > `maxChars` whose first `maxChars`
characters contain no sentence-terminal character, `enforce_length` returns
exactly the first `maxChars` characters of the text; and for every text with
length ≤ `maxChars`, `enforce_length` returns the text unchanged. -/
theorem C3_hard_cut_and_short_unchanged (text : String) (mn mx : Nat) :
    (text.length ≤ mx → enforce_length text mn mx = text) ∧
    (mx < text.length → (∀ c ∈ text.toList.take mx, isTerm c = false) →
      enforce_length text mn mx = (text.toList.take mx).asString) := by
  constructor
  · intro h
    exact enforce_length_of_le h
  · intro h hall
    have hnone : lastTermIdx (text.toList.take mx) = none := lastTermIdx_none_iff.mpr hall
    unfold enforce_length
    rw [if_neg (Nat.not_le.mpr h), hnone]

theorem C3_witness :
    enforce_length "abc" 100 200 = "abc" ∧
    enforce_length "abcdefgh" 2 5 = ("abcdefgh".toList.take 5).asString :=
  ⟨(C3_hard_cut_and_short_unchanged "abc" 100 200).1 (by decide),
   (C3_hard_cut_and_short_unchanged "abcdefgh" 2 5).2 (by decide) (by decide)⟩

/-- C2 fails as stated: for `text = ".abcd"` and window `[1, 4]`, the text is
longer than `maxChars = 4` and its 4-character prefix `".abc"` contains a
sentence terminator (only at index 0), yet `enforce_length` returns the raw
hard cut `".abc"` — not the substring up to and including the last terminator
(`"."`) — and the result does not end in a terminator. -/
theorem C2_counterexample :
    4 < (".abcd" : String).length ∧
    ((".abcd" : String).toList.take 4).any isTerm = true ∧
    enforce_length ".abcd" 1 4 = ".abc" ∧
    enforce_length ".abcd" 1 4 ≠ "." ∧
    (enforce_length ".abcd" 1 4).toList.getLast?.map isTerm = some false := by
  decide

/-- C2 (amended): for every text with length > `maxChars` whose first
`maxChars` characters contain a sentence-terminal character at some index
`j ≥ 1` (i.e. not solely at the very first position), `enforce_length`
returns the substring of the `maxChars`-prefix up to and including the last
terminator (which sits at an index `i ≥ 1`): the result ends in that
terminator, has length ≤ `maxChars`, and a second application with the same
window leaves it unchanged. -/
theorem C2_amended (text : String) (mn mx : Nat) (j : Nat)
    (hlong : mx < text.length)
    (hj : 0 < j) (hjlt : j < (text.toList.take mx).length)
    (hterm : isTerm ((text.toList.take mx).getD j ' ') = true) :
    ∃ i, lastTermIdx (text.toList.take mx) = some i ∧ 0 < i ∧
      enforce_length text mn mx = ((text.toList.take mx).take (i + 1)).asString ∧
      (∃ c, (enforce_length text mn mx).toList.getLast? = some c ∧ isTerm c = true) ∧
      (enforce_length text mn mx).length ≤ mx ∧
      enforce_length (enforce_length text mn mx) mn mx = enforce_length text mn mx := by
  obtain ⟨i, hlast, hge⟩ := lastTermIdx_exists hjlt hterm
  have hipos : 0 < i := Nat.lt_of_lt_of_le hj hge
  obtain ⟨k, rfl⟩ : ∃ k, i = k + 1 := ⟨i - 1, by omega⟩
  have hilt : k + 1 < (text.toList.take mx).length := lastTermIdx_lt_length hlast
  have hlen_take : (text.toList.take mx).length ≤ mx := by
    simpa using List.length_take_le mx text.toList
  have henf : enforce_length text mn mx = ((text.toList.take mx).take (k + 2)).asString := by
    unfold enforce_length
    rw [if_neg (Nat.not_le.mpr hlong), hlast]
  have hreslen : (enforce_length text mn mx).length = k + 2 := by
    rw [henf, length_asString, List.length_take]
    omega
  refine ⟨k + 1, hlast, Nat.succ_pos k, henf, ?_, ?_, ?_⟩
  · -- the result ends in the last terminator
    refine ⟨(text.toList.take mx).getD (k + 1) ' ', ?_, lastTermIdx_isTerm hlast⟩
    rw [henf, asString_toList, List.getLast?_eq_getElem?]
    have hlen2 : ((text.toList.take mx).take (k + 2)).length = k + 2 := by
      rw [List.length_take]; omega
    rw [hlen2]
    have h21 : k + 2 - 1 = k + 1 := by omega
    rw [h21]
    rw [List.getElem?_take_of_lt (by omega)]
    rw [List.getElem?_eq_getElem hilt]
    simp only [List.getD_eq_getElem?_getD]
    rw [List.getElem?_eq_getElem hilt]
    simp
  · omega
  · exact enforce_length_of_le (by omega)

theorem C2_amended_witness :
    ∃ i, lastTermIdx ("ab.cdef".toList.take 5) = some i ∧ 0 < i ∧
      enforce_length "ab.cdef" 1 5 = (("ab.cdef".toList.take 5).take (i + 1)).asString ∧
      (∃ c, (enforce_length "ab.cdef" 1 5).toList.getLast? = some c ∧ isTerm c = true) ∧
      (enforce_length "ab.cdef" 1 5).length ≤ 5 ∧
      enforce_length (enforce_length "ab.cdef" 1 5) 1 5 = enforce_length "ab.cdef" 1 5 :=
  C2_amended "ab.cdef" 1 5 2 (by decide) (by decide) (by decide) (by decide)

/-- Tab, CR and LF are removed anywhere in the URL by CPython
`urllib.parse.urlsplit` before parsing. -/
def isUnsafeUrlChar (c : Char) : Bool := c = '\t' || c = '\r' || c = '\n'

/-- WHATWG C0-control-or-space class: `urlsplit` strips these from the left
of the URL. -/
def isC0orSpace (c : Char) : Bool := c.val ≤ 0x20

/-- Characters allowed in a URL scheme (ASCII letters, digits, `+`, `-`,
`.`), per `urllib.parse.scheme_chars`. -/
def isSchemeChar (c : Char) : Bool := c.isAlpha || c.isDigit || c = '+' || c = '-' || c = '.'

/-- Scheme splitting of `urlsplit`: if the first `:` sits at index `i > 0`,
the first character is an ASCII letter and every character before the `:`
is a scheme character, parsing continues after the `:`. -/
def dropScheme (l : List Char) : List Char :=
  match l.findIdx? (fun c => c = ':') with
  | some i =>
    if 0 < i ∧ (l.headD ' ').isAlpha = true ∧ (l.take i).all isSchemeChar = true then
      l.drop (i + 1)
    else l
  | none => l

/-- The `netloc` component of `urllib.parse.urlparse` (CPython): left-strip
C0 controls/space, delete tab/CR/LF, split an optional scheme, and only a
leading `//` introduces a netloc, which then runs to the first `/`, `?` or
`#`.  Mismatched square brackets raise `ValueError` (modelled as
`Except.error`); every other string input parses without raising. -/
def urlparse_netloc (url : String) : Except String String :=
  let l := (url.toList.dropWhile isC0orSpace).filter (fun c => !isUnsafeUrlChar c)
  match dropScheme l with
  | '/' :: '/' :: r =>
    let netloc := r.takeWhile (fun c => c ≠ '/' && c ≠ '?' && c ≠ '#')
    if (netloc.contains '[' && !netloc.contains ']') ||
       (netloc.contains ']' && !netloc.contains '[') then
      Except.error "Invalid IPv6 URL"
    else Except.ok netloc.asString
  | _ => Except.ok ""

/-- Python `netloc.replace("www.", "")`: remove every left-to-right
non-overlapping occurrence of the substring `"www."`. -/
def removeWWW : List Char → List Char
  | 'w' :: 'w' :: 'w' :: '.' :: rest => removeWWW rest
  | c :: rest => c :: removeWWW rest
  | [] => []

/-- Whether `"www."` occurs as a substring. -/
def hasWWW : List Char → Bool
  | 'w' :: 'w' :: 'w' :: '.' :: _ => true
  | _ :: rest => hasWWW rest
  | [] => false

/-- Model of `clean_domain` from app.py lines 29–34: the netloc of the parsed URL
with every `"www."` occurrence removed; empty netloc or a parse error
(caught by the `try`/`except`) yields `""`. -/
def clean_domain (url : String) : String :=
  match urlparse_netloc url with
  | Except.error _ => ""
  | Except.ok netloc => if netloc = "" then "" else (removeWWW netloc.toList).asString

theorem removeWWW_of_not_hasWWW : ∀ l : List Char, hasWWW l = false → removeWWW l = l := by
  intro l
  induction l using removeWWW.induct with
  | case1 rest ih =>
    intro h
    rw [hasWWW] at h
    cases h
  | case2 c rest hne ih =>
    intro h
    rw [hasWWW.eq_2 c rest hne] at h
    rw [removeWWW.eq_2 c rest hne, ih h]
  | case3 =>
    intro _
    rfl

theorem removeWWW_cons_www (t : List Char) :
    removeWWW ('w' :: 'w' :: 'w' :: '.' :: t) = removeWWW t := rfl

/-- C4 fails as stated: `clean_domain` removes every `"www."` occurrence,
not exactly one leading occurrence — on
`"https://www.www.example.com/shop"` (host `www.www.example.com`) it returns
`"example.com"` instead of `"www.example.com"` — and it is not idempotent:
re-applying it to its own result `"example.com"` (the spec's own example
output) yields `""`, because a bare hostname has no `//` and parses with an
empty host. -/
theorem C4_counterexample :
    clean_domain "https://www.www.example.com/shop" = "example.com" ∧
    ("example.com" : String) ≠ "www.example.com" ∧
    clean_domain "https://www.example.com/shop" = "example.com" ∧
    clean_domain (clean_domain "https://www.example.com/shop") = "" ∧
    ("" : String) ≠ "example.com" := by
  refine ⟨by decide, by decide, by decide, by decide, by decide⟩

/-- C4 (amended): for every URL whose parse yields a host, `clean_domain`
returns the host with every left-to-right non-overlapping occurrence of
`"www."` removed — in particular a single leading `"www."` is stripped
whenever no other occurrence remains — and for an empty host or a parse
failure it returns the empty string and never raises (the `except` branch). -/
theorem C4_amended (url : String) :
    (∀ n, urlparse_netloc url = Except.ok n → n ≠ "" →
        clean_domain url = (removeWWW n.toList).asString) ∧
    (urlparse_netloc url = Except.ok "" → clean_domain url = "") ∧
    (∀ e, urlparse_netloc url = Except.error e → clean_domain url = "") ∧
    (∀ t : List Char, hasWWW t = false →
        removeWWW ('w' :: 'w' :: 'w' :: '.' :: t) = t) := by
  refine ⟨?_, ?_, ?_, ?_⟩
  · intro n hok hne
    unfold clean_domain
    rw [hok]
    simp [hne]
  · intro hok
    unfold clean_domain
    rw [hok]
    simp
  · intro e herr
    unfold clean_domain
    rw [herr]
  · intro t ht
    rw [removeWWW_cons_www]
    exact removeWWW_of_not_hasWWW t ht

theorem C4_amended_witness :
    clean_domain "https://www.example.com/shop" = (removeWWW ("www.example.com" : String).toList).asString ∧
    removeWWW ('w' :: 'w' :: 'w' :: '.' :: ("example.com" : String).toList) = ("example.com" : String).toList :=
  ⟨(C4_amended "https://www.example.com/shop").1 "www.example.com" rfl (by decide),
   (C4_amended "https://www.example.com/shop").2.2.2 ("example.com" : String).toList (by decide)⟩

/-- Model of `target_chars` from app.py line 160: `int((target_min + target_max) / 2)`.
For the form's value range (each bound ≤ 5000) Python's float division is
exact on halves, so `int()` truncation coincides with natural floor
division. -/
def target_chars (target_min target_max : Nat) : Nat := (target_min + target_max) / 2

/-- C6 fails as stated: for the form-accepted pair (501, 602) the code
computes 551, while the arithmetic mean 551.5 rounded to the nearest integer
is 552 (so is Python's banker-rounding `round`, since 552 is even). -/
theorem C6_counterexample :
    100 ≤ 501 ∧ 501 ≤ 602 ∧ 602 ≤ 5000 ∧
    target_chars 501 602 = 551 ∧
    round (((501 : ℚ) + 602) / 2) = 552 ∧ (551 : ℤ) ≠ 552 := by
  refine ⟨by norm_num, by norm_num, by norm_num, by decide, ?_, by decide⟩
  rw [round_eq]
  norm_num

/-- C6 (amended): the computed target equals the arithmetic mean of
`minChars` and `maxChars` rounded DOWN to the nearest integer (its floor);
when `minChars + maxChars` is even this is the exact mean. -/
theorem C6_amended (mn mx : Nat) :
    target_chars mn mx = Nat.floor (((mn : ℚ) + mx) / 2) ∧
    ((mn + mx) % 2 = 0 → (target_chars mn mx : ℚ) = ((mn : ℚ) + mx) / 2) := by
  constructor
  · rw [target_chars]
    rw [show ((mn : ℚ) + mx) = ((mn + mx : ℕ) : ℚ) by push_cast; ring]
    rw [show (2 : ℚ) = ((2 : ℕ) : ℚ) by norm_num]
    rw [Nat.floor_div_eq_div]
  · intro h
    have h2 : (mn + mx) / 2 * 2 = mn + mx := Nat.div_mul_cancel (Nat.dvd_of_mod_eq_zero h)
    have h3 : (target_chars mn mx : ℚ) * 2 = (mn : ℚ) + mx := by
      have := congrArg (fun k : ℕ => (k : ℚ)) h2
      push_cast at this
      simpa [target_chars] using this
    linarith

theorem C6_amended_witness :
    (target_chars 500 600 : ℚ) = (((500 : ℕ) : ℚ) + ((600 : ℕ) : ℚ)) / 2 :=
  (C6_amended 500 600).2 (by decide)

/-- The Secrets entries read by `log_to_sheet` (app.py lines 56–59). `none`
models an absent (or, for the service account, falsy) entry. -/
structure LogConfig where
  log_sheet_id : Option String
  log_sheet_name : Option String
  timezone : Option String
  gcp_service_account : Option String
deriving DecidableEq

/-- The external spreadsheet side of one `log_to_sheet` call: either every
remote operation (credential build, authorize, open_by_key, worksheet,
get_all_values, append_row) succeeds and the sheet currently holds
`rowCount` rows, with the given local date and time strings, or some step
raises an exception with the given message. -/
inductive SheetEffect where
  | ok (rowCount : Nat) (date : String) (time : String)
  | raises (msg : String)
deriving DecidableEq

/-- The row appended by `log_to_sheet` (app.py line 79):
`[n, d, t, keyword or "", url or "", ctype or "", language or "", int(chars), model or ""]`
(`x or ""` is the identity on strings, as `""` is the only falsy string). -/
structure LogRow where
  n : Nat
  date : String
  time : String
  keyword : String
  url : String
  ctype : String
  language : String
  chars : Nat
  model : String
deriving DecidableEq

/-- Observable outcome of one `log_to_sheet` call. -/
inductive LogResult where
  | appended (row : LogRow)
  | skippedNoCreds
  | infoMsg (msg : String)
deriving DecidableEq

/-- Whether the outcome surfaces a user-visible `st.info` message. -/
def surfacesMessage : LogResult → Bool
  | LogResult.infoMsg _ => true
  | _ => false

/-- Whether the outcome appended a row to the remote sheet. -/
def performsAppend : LogResult → Bool
  | LogResult.appended _ => true
  | _ => false

/-- Model of `log_to_sheet` from app.py lines 50–82.  `st.secrets["LOG_SHEET_ID"]`
raises `KeyError` when absent, which the surrounding `try`/`except` converts
into an `st.info` message; an absent/falsy `gcp_service_account` hits the
early `return` (silent no-op); otherwise any exception from the remote
operations is caught and surfaced as `st.info`, and on success one row is
appended with `n` = current row count (header included). -/
def log_to_sheet (cfg : LogConfig) (eff : SheetEffect)
    (keyword url ctype language : String) (chars : Nat) (model : String) : LogResult :=
  match cfg.log_sheet_id with
  | none => LogResult.infoMsg "KeyError: st.secrets has no key LOG_SHEET_ID"
  | some _ =>
    match cfg.gcp_service_account with
    | none => LogResult.skippedNoCreds
    | some _ =>
      match eff with
      | SheetEffect.raises m => LogResult.infoMsg m
      | SheetEffect.ok n d t =>
          LogResult.appended ⟨n, d, t, keyword, url, ctype, language, chars, model⟩

/-- C8 fails as stated: with the store identifier (`LOG_SHEET_ID`) absent but
credentials present, `log_to_sheet` performs no append but does surface a
user-visible informational message (the caught `KeyError`), so the no-op is
not silent. -/
theorem C8_counterexample :
    performsAppend (log_to_sheet ⟨none, none, none, some "sa"⟩
      (SheetEffect.ok 1 "2026-10-12" "10:00:00") "kw" "https://smeg.com" "Listing"
      "Italiano" 550 "gpt-4o-mini") = false ∧
    surfacesMessage (log_to_sheet ⟨none, none, none, some "sa"⟩
      (SheetEffect.ok 1 "2026-10-12" "10:00:00") "kw" "https://smeg.com" "Listing"
      "Italiano" 550 "gpt-4o-mini") = true := by
  decide

/-- C8 (amended): if the service-account credentials are absent (store
identifier present), `log_to_sheet` silently no-ops — no append and no
message; if the store identifier is absent, it performs no append but
surfaces an informational message instead of staying silent. -/
theorem C8_amended (cfg : LogConfig) (eff : SheetEffect)
    (keyword url ctype language : String) (chars : Nat) (model : String) :
    (∀ sid, cfg.log_sheet_id = some sid → cfg.gcp_service_account = none →
      log_to_sheet cfg eff keyword url ctype language chars model = LogResult.skippedNoCreds ∧
      performsAppend (log_to_sheet cfg eff keyword url ctype language chars model) = false ∧
      surfacesMessage (log_to_sheet cfg eff keyword url ctype language chars model) = false) ∧
    (cfg.log_sheet_id = none →
      performsAppend (log_to_sheet cfg eff keyword url ctype language chars model) = false ∧
      surfacesMessage (log_to_sheet cfg eff keyword url ctype language chars model) = true) := by
  constructor
  · intro sid hsid hsa
    unfold log_to_sheet
    rw [hsid, hsa]
    exact ⟨rfl, rfl, rfl⟩
  · intro hsid
    unfold log_to_sheet
    rw [hsid]
    exact ⟨rfl, rfl⟩

theorem C8_amended_witness :
    log_to_sheet ⟨some "sheet1", none, none, none⟩ (SheetEffect.ok 3 "2026-10-12" "10:00:00")
      "kw" "" "Listing" "Italiano" 550 "gpt-4o-mini" = LogResult.skippedNoCreds ∧
    performsAppend (log_to_sheet ⟨some "sheet1", none, none, none⟩
      (SheetEffect.ok 3 "2026-10-12" "10:00:00") "kw" "" "Listing" "Italiano" 550
      "gpt-4o-mini") = false ∧
    surfacesMessage (log_to_sheet ⟨some "sheet1", none, none, none⟩
      (SheetEffect.ok 3 "2026-10-12" "10:00:00") "kw" "" "Listing" "Italiano" 550
      "gpt-4o-mini") = false :=
  (C8_amended ⟨some "sheet1", none, none, none⟩ (SheetEffect.ok 3 "2026-10-12" "10:00:00")
    "kw" "" "Listing" "Italiano" 550 "gpt-4o-mini").1 "sheet1" rfl rfl

/-- Result of `SYSTEM_PROMPT_BASE.format(min_c, max_c, target_chars, ctype)` (app.py
lines 179–191, 226–228): the fixed system instruction block with the window
substituted. -/
def system_prompt_base (min_c max_c tgt : Nat) (ctype : String) : String :=
  s!"Sei un SEO copywriter esperto di e-commerce. Genera testi introduttivi per pagine categoria (listing) o schede prodotto.\n\nRegole fisse:\n- Rispetta la lingua richiesta.\n- Mantieni tra {min_c} e {max_c} caratteri spazi inclusi (target {tgt}). È TASSATIVO restare nel range richiesto.\n- Evita keyword stuffing; usa sinonimi e varianti semantiche pertinenti al search intent.\n- Tono: professionale, chiaro, allineato al brand.\n- NON usare H1/H2/H3, elenchi, markdown, emoji o caratteri speciali (ok \u201c-\u201d o \u201c|\u201d se utili).\n- Non è un blog: dev\u2019essere breve e funzionale alla pagina {ctype}.\n- Non inserire meta, FAQ, link esterni o spiegazioni.\n- Rispondi solo con il testo finale."

/-- Result of `USER_PROMPT_TEMPLATE.format(...)` (app.py lines 193–214, 229–243). -/
def user_prompt_template (keyword url domain ctype tone brand_voice extra_guidelines
    language intro_text bullets : String) (min_c max_c tgt : Nat) : String :=
  s!"CONTESTO:\n- Keyword principale: \"{keyword}\"\n- URL del sito: {url} (dominio: {domain})\n- Tipo contenuto: {ctype}\n- Tono: {tone}\n- Voce del brand: {brand_voice}\n- Linee guida extra: {extra_guidelines}\n- Lingua: {language}\n\nMATERIALI:\n- Intro (facoltativa):\n{intro_text}\n- Bullet list (solo se scheda prodotto):\n{bullets}\n\nISTRUZIONI:\n1) Scrivi un testo introduttivo tra {min_c} e {max_c} caratteri spazi inclusi (target {tgt}).\n2) Inserisci in modo naturale almeno una delle keyword o varianti correlate all\u2019intento di ricerca.\n3) Descrivi chiaramente tipologia di prodotti e valore/stile del brand.\n4) Evita ripetizioni e punteggiatura superflua; niente titoli/elenco/meta/FAQ/link esterni."

/-- The explicit output directive appended to the user prompt before the
first call (app.py lines 252–256). -/
def output_rules : String :=
  "Restituisci esclusivamente il testo introduttivo (un unico blocco), senza titoli, sottotitoli, elenchi, meta, FAQ, link esterni o commenti."

/-- The corrective instruction `fix_prompt` (app.py lines 270–273). -/
def fix_prompt (target_min target_max tgt : Nat) : String :=
  s!"Riscrivi mantenendo il senso ma rientrando tra {target_min}-{target_max} caratteri (spazi inclusi, target {tgt}). Restituisci solo il contenuto, nessun commento."

/-- The form fields feeding one press of the generate button. -/
structure RunInput where
  keyword : String
  url : String
  content_type : String
  tone : String
  brand_voice : String
  extra_guidelines : String
  language : String
  intro_text : String
  bullets : String
  target_min : Nat
  target_max : Nat
  temperature : ℚ
  model : String
deriving DecidableEq

/-- One `client.chat.completions.create` request: model id, the two-message
prompt pair, sampling temperature and output-token ceiling. -/
structure CompletionCall where
  model : String
  system : String
  user : String
  temperature : ℚ
  max_tokens : Nat
deriving DecidableEq

/-- The system prompt used by both calls: the formatted base plus the
`"\n\nOUTPUT:"` suffix appended before the first call (app.py line 251). -/
def built_system_prompt (inp : RunInput) : String :=
  system_prompt_base inp.target_min inp.target_max
    (target_chars inp.target_min inp.target_max) inp.content_type ++ "\n\nOUTPUT:"

/-- The user prompt of the first call: the formatted template (with the
`or`-placeholders of app.py lines 229–243) plus the output rules appended at
line 256. -/
def built_user_prompt (inp : RunInput) : String :=
  user_prompt_template inp.keyword
    (if inp.url = "" then "(non fornito)" else inp.url)
    (if clean_domain inp.url = "" then "(non disponibile)" else clean_domain inp.url)
    inp.content_type inp.tone
    (if inp.brand_voice = "" then "(non specificata)" else inp.brand_voice)
    (if inp.extra_guidelines = "" then "(nessuna)" else inp.extra_guidelines)
    inp.language inp.intro_text inp.bullets
    inp.target_min inp.target_max (target_chars inp.target_min inp.target_max)
  ++ "\n\n" ++ output_rules

/-- The first completion call (app.py lines 259–262). -/
def first_call (inp : RunInput) : CompletionCall :=
  ⟨inp.model, built_system_prompt inp, built_user_prompt inp, inp.temperature, 1000⟩

/-- The corrective completion call (app.py lines 274–277): same system
prompt, user prompt = previous text, a blank line, the corrective
instruction. -/
def corrective_call (inp : RunInput) (prev : String) : CompletionCall :=
  ⟨inp.model, built_system_prompt inp,
   prev ++ "\n\n" ++ fix_prompt inp.target_min inp.target_max
      (target_chars inp.target_min inp.target_max),
   inp.temperature, 1000⟩

/-- Terminal state of one run of the pipeline. -/
inductive RunOutcome where
  | haltedEmptyKeyword
  | haltedNoApiKey
  | haltedEmptyFirstResult
  | presented (finalText : String) (cc : Nat) (success : Bool)
deriving DecidableEq

/-- Observable trace of one run: terminal state, the completion calls that
were issued (in order), and the logging outcome (`none` when the logging
stage was never reached). -/
structure RunTrace where
  outcome : RunOutcome
  calls : List CompletionCall
  logResult : Option LogResult
deriving DecidableEq

/-- Tail of the run block shared by both length branches (app.py lines
280–301): strip, enforce the window, recompute the count (the count taken at
line 278 right after the corrective call is dead — it is overwritten at line
282 before any use), log best-effort, and report success iff the final count
is inside the window. -/
def run_presented (inp : RunInput) (cfg : LogConfig) (eff : SheetEffect)
    (content : String) (calls : List CompletionCall) : RunTrace :=
  let finalText := enforce_length (pyStrip content) inp.target_min inp.target_max
  let cc := char_count finalText
  ⟨RunOutcome.presented finalText cc
      (!(decide (cc < inp.target_min) || decide (inp.target_max < cc))),
   calls,
   some (log_to_sheet cfg eff inp.keyword inp.url inp.content_type inp.language cc inp.model)⟩

/-- The run block of app.py (lines 220–333): keyword validation, client
check, first completion call, at most one corrective call when the first
count is outside the window, length enforcement, best-effort logging,
status report.  `oracle n` is the raw message content of the `n`-th
completion response; `call_openai` strips it, and an API error is
observationally the empty string (call_openai returns `""`).
`apiKeyPresent` models `get_openai_client()` succeeding; the provider
selector has a single option (`"OpenAI"`), so the unsupported-provider
branch is unreachable. -/
def run (inp : RunInput) (apiKeyPresent : Bool) (cfg : LogConfig) (eff : SheetEffect)
    (oracle : Nat → String) : RunTrace :=
  if pyStrip inp.keyword = "" then ⟨RunOutcome.haltedEmptyKeyword, [], none⟩
  else if apiKeyPresent = false then ⟨RunOutcome.haltedNoApiKey, [], none⟩
  else
    let content1 := pyStrip (oracle 0)
    if content1 = "" then ⟨RunOutcome.haltedEmptyFirstResult, [first_call inp], none⟩
    else if char_count content1 < inp.target_min ∨ inp.target_max < char_count content1 then
      run_presented inp cfg eff (pyStrip (oracle 1))
        [first_call inp, corrective_call inp content1]
    else
      run_presented inp cfg eff content1 [first_call inp]

theorem pyStrip_empty : pyStrip "" = "" := rfl

theorem enforce_length_length_le (t : String) (mn mx : Nat) :
    (enforce_length t mn mx).length ≤ mx := by
  unfold enforce_length
  by_cases h : t.length ≤ mx
  · simpa [h] using h
  · rw [if_neg h]
    cases hl : lastTermIdx (t.toList.take mx) with
    | none =>
      simp only [length_asString, List.length_take]
      omega
    | some i =>
      cases i with
      | zero =>
        simp only [length_asString, List.length_take]
        omega
      | succ k =>
        have hk := lastTermIdx_lt_length hl
        simp only [List.length_take] at hk
        simp only [length_asString, List.length_take]
        omega

/-- Unfolding of `run` once validation and the client check pass and the
first result is non-empty. -/
theorem run_valid_eq (inp : RunInput) (cfg : LogConfig) (eff : SheetEffect)
    (oracle : Nat → String) (hkw : ¬ pyStrip inp.keyword = "")
    (hne : ¬ pyStrip (oracle 0) = "") :
    run inp true cfg eff oracle =
      if char_count (pyStrip (oracle 0)) < inp.target_min ∨
         inp.target_max < char_count (pyStrip (oracle 0)) then
        run_presented inp cfg eff (pyStrip (oracle 1))
          [first_call inp, corrective_call inp (pyStrip (oracle 0))]
      else run_presented inp cfg eff (pyStrip (oracle 0)) [first_call inp] := by
  simp [run, hkw, hne]

/-- Outcome and calls of a run do not depend on the logging configuration
or on the sheet effects. -/
theorem run_log_independent (inp : RunInput) (key : Bool) (cfg cfg' : LogConfig)
    (eff eff' : SheetEffect) (oracle : Nat → String) :
    (run inp key cfg eff oracle).outcome = (run inp key cfg' eff' oracle).outcome ∧
    (run inp key cfg eff oracle).calls = (run inp key cfg' eff' oracle).calls := by
  unfold run
  by_cases h1 : pyStrip inp.keyword = "" <;>
    by_cases h2 : key = false <;>
    by_cases h3 : pyStrip (oracle 0) = "" <;>
    by_cases h4 : char_count (pyStrip (oracle 0)) < inp.target_min ∨
      inp.target_max < char_count (pyStrip (oracle 0)) <;>
    simp [h1, h2, h3, h4, run_presented]

/-- C5: for every request whose keyword is empty or whitespace-only after
trimming, the run stops in the input-validation warning state and issues
zero completion calls and no logging attempt, whatever the other inputs,
configuration, sheet effects and completion oracle. -/
theorem C5_blank_keyword_halts (inp : RunInput) (key : Bool) (cfg : LogConfig)
    (eff : SheetEffect) (oracle : Nat → String)
    (h : pyStrip inp.keyword = "") :
    run inp key cfg eff oracle = ⟨RunOutcome.haltedEmptyKeyword, [], none⟩ := by
  simp [run, h]

theorem C5_witness :
    run ⟨"   ", "", "Listing", "professionale", "", "", "Italiano", "", "", 500, 600,
        2 / 5, "gpt-4o-mini"⟩
      true ⟨some "sheet1", none, none, some "sa"⟩ (SheetEffect.ok 1 "2026-10-12" "10:00:00")
      (fun _ => "testo") =
      ⟨RunOutcome.haltedEmptyKeyword, [], none⟩ :=
  C5_blank_keyword_halts _ _ _ _ _ (by decide)

/-- C1: in every run that passes validation, has a client and a non-empty
first result: if the first result's character count is outside the inclusive
window `[minChars, maxChars]`, exactly one corrective call is issued — with
the same system prompt as the first call and a user prompt equal to the
previous text, a blank line, and the corrective instruction — and the
presented count is recomputed from the corrective result with no further
corrective attempts; if the first count is inside the window, zero
corrective calls are issued. -/
theorem C1_corrective_call_policy (inp : RunInput) (cfg : LogConfig) (eff : SheetEffect)
    (oracle : Nat → String)
    (hkw : ¬ pyStrip inp.keyword = "")
    (hne : ¬ pyStrip (oracle 0) = "") :
    (char_count (pyStrip (oracle 0)) < inp.target_min ∨
        inp.target_max < char_count (pyStrip (oracle 0)) →
      (run inp true cfg eff oracle).calls =
        [first_call inp, corrective_call inp (pyStrip (oracle 0))] ∧
      (corrective_call inp (pyStrip (oracle 0))).system = (first_call inp).system ∧
      (corrective_call inp (pyStrip (oracle 0))).user =
        pyStrip (oracle 0) ++ "\n\n" ++
          fix_prompt inp.target_min inp.target_max
            (target_chars inp.target_min inp.target_max) ∧
      (∃ b, (run inp true cfg eff oracle).outcome =
        RunOutcome.presented
          (enforce_length (pyStrip (pyStrip (oracle 1))) inp.target_min inp.target_max)
          (char_count (enforce_length (pyStrip (pyStrip (oracle 1)))
            inp.target_min inp.target_max)) b)) ∧
    (inp.target_min ≤ char_count (pyStrip (oracle 0)) ∧
        char_count (pyStrip (oracle 0)) ≤ inp.target_max →
      (run inp true cfg eff oracle).calls = [first_call inp]) := by
  constructor
  · intro hout
    rw [run_valid_eq inp cfg eff oracle hkw hne, if_pos hout]
    refine ⟨rfl, rfl, rfl, ?_⟩
    exact ⟨_, rfl⟩
  · intro hin
    rw [run_valid_eq inp cfg eff oracle hkw hne, if_neg (by omega)]
    rfl

/-- C7: an empty first-call result halts the pipeline with no enforcement,
no logging and no presentation, whereas an empty corrective-call result is
non-fatal: it is passed through to enforcement and reporting, yielding a
presented final text `""` with charCount 0, which is also what gets
logged. -/
theorem C7_empty_result_handling (inp : RunInput) (cfg : LogConfig) (eff : SheetEffect)
    (oracle : Nat → String) (hkw : ¬ pyStrip inp.keyword = "") :
    (pyStrip (oracle 0) = "" →
      run inp true cfg eff oracle =
        ⟨RunOutcome.haltedEmptyFirstResult, [first_call inp], none⟩) ∧
    (¬ pyStrip (oracle 0) = "" →
      (char_count (pyStrip (oracle 0)) < inp.target_min ∨
          inp.target_max < char_count (pyStrip (oracle 0))) →
      pyStrip (oracle 1) = "" →
      ∃ b, run inp true cfg eff oracle =
        ⟨RunOutcome.presented "" 0 b,
         [first_call inp, corrective_call inp (pyStrip (oracle 0))],
         some (log_to_sheet cfg eff inp.keyword inp.url inp.content_type inp.language
            0 inp.model)⟩) := by
  constructor
  · intro hempty
    simp [run, hkw, hempty]
  · intro hne hout hempty2
    rw [run_valid_eq inp cfg eff oracle hkw hne, if_pos hout]
    rw [run_presented, hempty2, pyStrip_empty]
    rw [@enforce_length_of_le "" inp.target_min inp.target_max (Nat.zero_le _)]
    exact ⟨_, rfl⟩

/-- C9: for every run that reaches the logging stage, an exception raised
during logging (authentication, store lookup or append — modelled by
`SheetEffect.raises`) is caught and downgraded to an informational message,
and the presented outcome (final text, charCount, success/warning flag) and
the issued calls are identical to those of the run in which logging
succeeds (which appends a row). -/
theorem C9_logging_never_alters_outcome (inp : RunInput) (cfg : LogConfig)
    (oracle : Nat → String) (m : String) (n : Nat) (d t : String) (sid sa : String)
    (hkw : ¬ pyStrip inp.keyword = "")
    (hne : ¬ pyStrip (oracle 0) = "")
    (hsid : cfg.log_sheet_id = some sid)
    (hsa : cfg.gcp_service_account = some sa) :
    (run inp true cfg (SheetEffect.raises m) oracle).outcome =
      (run inp true cfg (SheetEffect.ok n d t) oracle).outcome ∧
    (run inp true cfg (SheetEffect.raises m) oracle).calls =
      (run inp true cfg (SheetEffect.ok n d t) oracle).calls ∧
    (run inp true cfg (SheetEffect.raises m) oracle).logResult =
      some (LogResult.infoMsg m) ∧
    (∃ row, (run inp true cfg (SheetEffect.ok n d t) oracle).logResult =
      some (LogResult.appended row)) := by
  refine ⟨(run_log_independent inp true cfg cfg _ _ oracle).1,
          (run_log_independent inp true cfg cfg _ _ oracle).2, ?_, ?_⟩
  · rw [run_valid_eq inp cfg _ oracle hkw hne]
    by_cases hout : char_count (pyStrip (oracle 0)) < inp.target_min ∨
        inp.target_max < char_count (pyStrip (oracle 0)) <;>
      [rw [if_pos hout]; rw [if_neg hout]] <;>
      · rw [run_presented]
        unfold log_to_sheet
        rw [hsid, hsa]
  · rw [run_valid_eq inp cfg _ oracle hkw hne]
    by_cases hout : char_count (pyStrip (oracle 0)) < inp.target_min ∨
        inp.target_max < char_count (pyStrip (oracle 0)) <;>
      [rw [if_pos hout]; rw [if_neg hout]] <;>
      · rw [run_presented]
        unfold log_to_sheet
        rw [hsid, hsa]
        exact ⟨_, rfl⟩

/-- C10: every run that reaches the Present stage reports a charCount equal
to the exact character length of the final displayed (and copyable) text;
that text is the whitespace-stripped (possibly corrected) model output after
length enforcement; its length never exceeds `maxChars`; hence the warning
state at Present holds exactly when the count is under the minimum, never
because it is over the maximum. -/
theorem C10_present_invariants (inp : RunInput) (cfg : LogConfig) (eff : SheetEffect)
    (oracle : Nat → String)
    (hkw : ¬ pyStrip inp.keyword = "")
    (hne : ¬ pyStrip (oracle 0) = "") :
    ∃ f cc b, (run inp true cfg eff oracle).outcome = RunOutcome.presented f cc b ∧
      cc = char_count f ∧
      f = enforce_length
            (pyStrip (if char_count (pyStrip (oracle 0)) < inp.target_min ∨
                        inp.target_max < char_count (pyStrip (oracle 0))
                      then pyStrip (oracle 1) else pyStrip (oracle 0)))
            inp.target_min inp.target_max ∧
      cc ≤ inp.target_max ∧
      (b = false ↔ cc < inp.target_min) := by
  rw [run_valid_eq inp cfg eff oracle hkw hne]
  by_cases hout : char_count (pyStrip (oracle 0)) < inp.target_min ∨
      inp.target_max < char_count (pyStrip (oracle 0))
  · rw [if_pos hout]
    refine ⟨_, _, _, rfl, rfl, by rw [if_pos hout], ?_, ?_⟩
    · exact enforce_length_length_le _ _ _
    · have hle := enforce_length_length_le (pyStrip (pyStrip (oracle 1)))
        inp.target_min inp.target_max
      have hnot : ¬ inp.target_max <
          char_count (enforce_length (pyStrip (pyStrip (oracle 1)))
            inp.target_min inp.target_max) := by
        unfold char_count
        omega
      rw [decide_eq_false hnot]
      simp
  · rw [if_neg hout]
    refine ⟨_, _, _, rfl, rfl, by rw [if_neg hout], ?_, ?_⟩
    · exact enforce_length_length_le _ _ _
    · have hle := enforce_length_length_le (pyStrip (pyStrip (oracle 0)))
        inp.target_min inp.target_max
      have hnot : ¬ inp.target_max <
          char_count (enforce_length (pyStrip (pyStrip (oracle 0)))
            inp.target_min inp.target_max) := by
        unfold char_count
        omega
      rw [decide_eq_false hnot]
      simp

/-- Sample form input for instantiating the orchestrator theorems (the small
window `[3, 5]` keeps concrete evaluation cheap; `2 / 5` is the default
temperature 0.4). -/
def sampleInput : RunInput :=
  ⟨"frigoriferi", "https://www.smeg.com/it", "Listing", "professionale", "", "",
   "Italiano", "", "", 3, 5, 2 / 5, "gpt-4o-mini"⟩

/-- Completion oracle whose first response is out of window (8 characters)
and whose corrective response is in window (3 characters). -/
def sampleOracle : Nat → String := fun n => if n = 0 then "abcdefgh" else "ab."

/-- Completion oracle whose first response is out of window and whose
corrective response is empty. -/
def sampleOracleEmptyFix : Nat → String := fun n => if n = 0 then "abcdefgh" else ""

/-- A fully configured logging setup. -/
def sampleCfg : LogConfig := ⟨some "sheet1", some "logs", some "Europe/Rome", some "sa"⟩

theorem C1_witness :
    (run sampleInput true sampleCfg (SheetEffect.ok 2 "2026-10-12" "10:00:00")
        sampleOracle).calls =
      [first_call sampleInput, corrective_call sampleInput (pyStrip (sampleOracle 0))] ∧
    (corrective_call sampleInput (pyStrip (sampleOracle 0))).system =
      (first_call sampleInput).system ∧
    (corrective_call sampleInput (pyStrip (sampleOracle 0))).user =
      pyStrip (sampleOracle 0) ++ "\n\n" ++
        fix_prompt sampleInput.target_min sampleInput.target_max
          (target_chars sampleInput.target_min sampleInput.target_max) ∧
    (∃ b, (run sampleInput true sampleCfg (SheetEffect.ok 2 "2026-10-12" "10:00:00")
        sampleOracle).outcome =
      RunOutcome.presented
        (enforce_length (pyStrip (pyStrip (sampleOracle 1))) sampleInput.target_min
          sampleInput.target_max)
        (char_count (enforce_length (pyStrip (pyStrip (sampleOracle 1)))
          sampleInput.target_min sampleInput.target_max)) b) :=
  (C1_corrective_call_policy sampleInput sampleCfg (SheetEffect.ok 2 "2026-10-12" "10:00:00")
    sampleOracle (by decide) (by decide)).1 (by decide)

theorem C7_witness :
    run sampleInput true sampleCfg (SheetEffect.ok 2 "2026-10-12" "10:00:00") (fun _ => "  ") =
      ⟨RunOutcome.haltedEmptyFirstResult, [first_call sampleInput], none⟩ ∧
    (∃ b, run sampleInput true sampleCfg (SheetEffect.ok 2 "2026-10-12" "10:00:00")
        sampleOracleEmptyFix =
      ⟨RunOutcome.presented "" 0 b,
       [first_call sampleInput, corrective_call sampleInput (pyStrip (sampleOracleEmptyFix 0))],
       some (log_to_sheet sampleCfg (SheetEffect.ok 2 "2026-10-12" "10:00:00")
          sampleInput.keyword sampleInput.url sampleInput.content_type sampleInput.language
          0 sampleInput.model)⟩) :=
  ⟨(C7_empty_result_handling sampleInput sampleCfg (SheetEffect.ok 2 "2026-10-12" "10:00:00")
      (fun _ => "  ") (by decide)).1 (by decide),
   (C7_empty_result_handling sampleInput sampleCfg (SheetEffect.ok 2 "2026-10-12" "10:00:00")
      sampleOracleEmptyFix (by decide)).2 (by decide) (by decide) (by decide)⟩

theorem C9_witness :
    (run sampleInput true sampleCfg (SheetEffect.raises "boom") sampleOracle).outcome =
      (run sampleInput true sampleCfg (SheetEffect.ok 2 "2026-10-12" "10:00:00")
        sampleOracle).outcome ∧
    (run sampleInput true sampleCfg (SheetEffect.raises "boom") sampleOracle).calls =
      (run sampleInput true sampleCfg (SheetEffect.ok 2 "2026-10-12" "10:00:00")
        sampleOracle).calls ∧
    (run sampleInput true sampleCfg (SheetEffect.raises "boom") sampleOracle).logResult =
      some (LogResult.infoMsg "boom") ∧
    (∃ row, (run sampleInput true sampleCfg (SheetEffect.ok 2 "2026-10-12" "10:00:00")
        sampleOracle).logResult = some (LogResult.appended row)) :=
  C9_logging_never_alters_outcome sampleInput sampleCfg sampleOracle "boom" 2 "2026-10-12"
    "10:00:00" "sheet1" "sa" (by decide) (by decide) rfl rfl

theorem C10_witness :
    ∃ f cc b, (run sampleInput true sampleCfg (SheetEffect.ok 2 "2026-10-12" "10:00:00")
        sampleOracle).outcome = RunOutcome.presented f cc b ∧
      cc = char_count f ∧
      f = enforce_length
            (pyStrip (if char_count (pyStrip (sampleOracle 0)) < sampleInput.target_min ∨
                        sampleInput.target_max < char_count (pyStrip (sampleOracle 0))
                      then pyStrip (sampleOracle 1) else pyStrip (sampleOracle 0)))
            sampleInput.target_min sampleInput.target_max ∧
      cc ≤ sampleInput.target_max ∧
      (b = false ↔ cc < sampleInput.target_min) :=
  C10_present_invariants sampleInput sampleCfg (SheetEffect.ok 2 "2026-10-12" "10:00:00")
    sampleOracle (by decide) (by decide)

end SeoWriter
